import Mathlib

/-!
Verification development for the WIA scanner utility (`src/lib.rs`, `src/util.rs`).

The code drives the Windows Image Acquisition COM subsystem.  The shallow
embedding models every COM/OS call outcome as an explicit input (an
`Except WinError _` value packed into an environment structure), and embeds the
program's own decision logic — error translation, property reading, capability
detection, device cataloguing and scan orchestration — as pure Lean functions
that follow the Rust control flow line by line.
-/

/-- Model of `windows::core::Error` as consumed by `handle_error`: the only part
of the error the code uses is `err.code().to_string()`, the canonical
hexadecimal rendering of the HRESULT (e.g. `"0x80210006"`).  We carry that
string directly. -/
structure WinError where
  code : String
deriving DecidableEq, Repr

/-- Embeds `ERROR_CODES` from `src/util.rs` lines 54-189: the fixed table of 20
`(code, (name, description))` entries, copied verbatim. -/
def ERROR_CODES : List (String × (String × String)) := [
  ("0x80210006",
    ("WIA_ERROR_BUSY",
     "The device is busy. Close any apps that are using this device or wait for it to finish and then try again.")),
  ("0x80210016",
    ("WIA_ERROR_COVER_OPEN",
     "One or more of the device’s cover is open.")),
  ("0x8021000A",
    ("WIA_ERROR_DEVICE_COMMUNICATION",
     "Communication with the WIA device failed. Make sure that the device is powered on and connected to the PC. If the problem persists, disconnect and reconnect the device.")),
  ("0x8021000D",
    ("WIA_ERROR_DEVICE_LOCKED",
     "The device is locked. Close any apps that are using this device or wait for it to finish and then try again.")),
  ("0x8021000E",
    ("WIA_ERROR_EXCEPTION_IN_DRIVER",
     "The device driver threw an exception.")),
  ("0x80210001",
    ("WIA_ERROR_GENERAL_ERROR",
     "An unknown error has occurred with the WIA device.")),
  ("0x8021000C",
    ("WIA_ERROR_INCORRECT_HARDWARE_SETTING",
     "There is an incorrect setting on the WIA device.")),
  ("0x8021000B",
    ("WIA_ERROR_INVALID_COMMAND",
     "The device doesn't support this command.")),
  ("0x8021000F",
    ("WIA_ERROR_INVALID_DRIVER_RESPONSE",
     "The response from the driver is invalid.")),
  ("0x80210009",
    ("WIA_ERROR_ITEM_DELETED",
     "The WIA device was deleted. It's no longer available.")),
  ("0x80210017",
    ("WIA_ERROR_LAMP_OFF",
     "The scanner's lamp is off.")),
  ("0x80210021",
    ("WIA_ERROR_MAXIMUM_PRINTER_ENDORSER_COUNTER",
     "A scan job was interrupted because an Imprinter/Endorser item reached the maximum valid value for WIA_IPS_PRINTER_ENDORSER_COUNTER, and was reset to 0. This feature is available with Windows 8 and later versions of Windows.")),
  ("0x80210020",
    ("WIA_ERROR_MULTI_FEED",
     "A scan error occurred because of a multiple page feed condition. This feature is available with Windows 8 and later versions of Windows.")),
  ("0x80210005",
    ("WIA_ERROR_OFFLINE",
     "The device is offline. Make sure the device is powered on and connected to the PC.")),
  ("0x80210003",
    ("WIA_ERROR_PAPER_EMPTY",
     "There are no documents in the document feeder.")),
  ("0x80210002",
    ("WIA_ERROR_PAPER_JAM",
     "Paper is jammed in the scanner's document feeder.")),
  ("0x80210004",
    ("WIA_ERROR_PAPER_PROBLEM",
     "An unspecified problem occurred with the scanner's document feeder.")),
  ("0x80210007",
    ("WIA_ERROR_WARMING_UP",
     "The device is warming up.")),
  ("0x80210008",
    ("WIA_ERROR_USER_INTERVENTION",
     "There is a problem with the WIA device. Make sure that the device is turned on, online, and any cables are properly connected.")),
  ("0x80210015",
    ("WIA_S_NO_DEVICE_AVAILABLE",
     "No scanner device was found. Make sure the device is online, connected to the PC, and has the correct driver installed on the PC."))]

/-- Embeds `get_error` from `src/util.rs` lines 192-197: linear scan of
`ERROR_CODES` for the first entry whose code equals `error_code`, projecting
out the `(name, description)` pair. -/
def get_error (error_code : String) : Option (String × String) :=
  (ERROR_CODES.find? (fun p => p.1 == error_code)).map (fun p => p.2)

/-- Embeds `handle_error` from `src/util.rs` lines 199-208: renders the HRESULT
code string through `get_error`; a hit yields `"{code} - {name} - {desc}"`, a
miss yields the fixed string `"Unknown error"`. -/
def handle_error (err : WinError) : String :=
  let code := err.code
  match get_error code with
  | some (name, desc) => code ++ " - " ++ name ++ " - " ++ desc
  | none => "Unknown error"

/-- C1, counterexample.  The claim says that for a code string not in the
table, `get_error` returns no entry AND `handle_error` then produces a message
containing the raw code string.  At the unknown code `"0xDEADBEEF"`,
`get_error` does return `none`, but `handle_error` produces the fixed message
`"Unknown error"`, which does not contain the raw code string, refuting the
second half of the claim. -/
theorem C1_counterexample :
    get_error "0xDEADBEEF" = none ∧
    handle_error ⟨"0xDEADBEEF"⟩ = "Unknown error" ∧
    ¬ ("0xDEADBEEF".data <:+: (handle_error ⟨"0xDEADBEEF"⟩).data) := by
  refine ⟨rfl, rfl, ?_⟩
  decide

set_option maxRecDepth 4000 in
/-- C1, amended.  For every one of the 20 entries of the fixed table,
`get_error` applied to that entry's hexadecimal code string returns exactly the
`(name, description)` pair stored for it; for every code string not in the
table, `get_error` returns `none` and `handle_error` renders the fixed message
`"Unknown error"` (which does not include the raw code). -/
theorem C1_translate_exact :
    (∀ e ∈ ERROR_CODES, get_error e.1 = some e.2) ∧
    (∀ code : String, (∀ e ∈ ERROR_CODES, e.1 ≠ code) →
      get_error code = none ∧ handle_error ⟨code⟩ = "Unknown error") := by
  constructor
  · decide
  · intro code h
    have hfind : ERROR_CODES.find? (fun p => p.1 == code) = none := by
      rw [List.find?_eq_none]
      intro x hx
      simpa using h x hx
    constructor
    · simp [get_error, hfind]
    · simp [handle_error, get_error, hfind]

/-- C1, witness for the amended theorem at the concrete unknown code
`"0x12345678"`. -/
theorem C1_translate_exact_witness :
    get_error "0x12345678" = none ∧ handle_error ⟨"0x12345678"⟩ = "Unknown error" :=
  C1_translate_exact.2 "0x12345678" (by decide)

/-- Model of a `PROPVARIANT` as inspected by this program: the code only ever
looks at the variant tag `vt` and, for `VT_BSTR`, the `bstrVal` payload or, for
`VT_I4`, the `lVal` payload.  `lVal` is a 32-bit integer; we carry its 32-bit
pattern as a `Nat`, which preserves the bitwise tests the code performs. -/
inductive WiaVariant where
  | vtBstr (bstrVal : String)
  | vtI4 (lVal : Nat)
  | vtOther
deriving DecidableEq, Repr

/-- WIA constant `FEEDER` (value 1 in the Windows headers). -/
def FEEDER : Nat := 1

/-- WIA constant `FLATBED` (value 2 in the Windows headers). -/
def FLATBED : Nat := 2

/-- Outcome environment for one property read: the result of the
`IWiaPropertyStorage::ReadMultiple` call for the requested property id, and the
result of the subsequent `PropVariantClear` call. -/
structure PropReadOutcome where
  read : Except WinError WiaVariant
  clear : Except WinError Unit

/-- Embeds `read_bstr_property` from `src/util.rs` lines 18-52.  A store-read
failure maps through `handle_error` and propagates.  On success, a `VT_BSTR`
variant yields its string (empty BSTR yields the empty string) and ANY other
tag (including `VT_I4`) yields the empty string; then `PropVariantClear` runs,
its failure mapping through `handle_error`, and the string is returned. -/
def read_bstr_property (o : PropReadOutcome) : Except String String :=
  match o.read with
  | .error e => .error (handle_error e)
  | .ok property_variant =>
    let result :=
      match property_variant with
      | .vtBstr bstr => if !bstr.isEmpty then bstr else ""
      | _ => ""
    match o.clear with
    | .error e => .error (handle_error e)
    | .ok _ => .ok result

/-- C5, counterexample.  The claim says that when the variant is a signed
32-bit integer, `read_bstr_property` extracts that integer.  On a store whose
read yields `VT_I4` with value 42 (clear succeeding), the function instead
returns the neutral empty string — the integer payload is discarded, and the
result is not any rendering of 42. -/
theorem C5_counterexample :
    read_bstr_property ⟨.ok (.vtI4 42), .ok ()⟩ = .ok "" ∧ ("" : String) ≠ "42" := by
  exact ⟨rfl, by decide⟩

/-- C5, amended.  When the store read succeeds but the variant is not a BSTR —
including the signed 32-bit integer tag `VT_I4`, whose payload is discarded
rather than extracted — `read_bstr_property` returns the neutral empty string,
not an error; a BSTR variant yields its string; and when the store read itself
fails with subsystem error `e`, the function returns an Error carrying
`handle_error e`, the translated message for the subsystem status code. -/
theorem C5_read_property :
    (∀ v : Nat, read_bstr_property ⟨.ok (.vtI4 v), .ok ()⟩ = .ok "") ∧
    (read_bstr_property ⟨.ok .vtOther, .ok ()⟩ = .ok "") ∧
    (∀ s : String, ¬ s.isEmpty → read_bstr_property ⟨.ok (.vtBstr s), .ok ()⟩ = .ok s) ∧
    (∀ (o : PropReadOutcome) (e : WinError),
      o.read = .error e → read_bstr_property o = .error (handle_error e)) := by
  refine ⟨fun v => rfl, rfl, ?_, ?_⟩
  · intro s hs
    simp [read_bstr_property, hs]
  · intro o e h
    simp [read_bstr_property, h]

/-- C5, witness: the amended theorem applied at a BSTR store holding
`"scanner"` and at a store whose read fails with the busy HRESULT. -/
theorem C5_read_property_witness :
    read_bstr_property ⟨.ok (.vtBstr "scanner"), .ok ()⟩ = .ok "scanner" ∧
    read_bstr_property ⟨.error ⟨"0x80210006"⟩, .ok ()⟩ =
      .error (handle_error ⟨"0x80210006"⟩) :=
  ⟨C5_read_property.2.2.1 "scanner" (by decide),
   C5_read_property.2.2.2 ⟨.error ⟨"0x80210006"⟩, .ok ()⟩ ⟨"0x80210006"⟩ rfl⟩

/-- Outcome environment for one invocation of `check_scanner_capabilities`:
the result of the primary `ReadMultiple` on
`WIA_DPS_DOCUMENT_HANDLING_CAPABILITIES` with the `PropVariantClear` that
follows it, and the result of the fallback `ReadMultiple` on
`WIA_DPS_DOCUMENT_HANDLING_STATUS` with its `PropVariantClear`. -/
structure CapEnv where
  primaryRead : Except WinError WiaVariant
  primaryClear : Except WinError Unit
  fallbackRead : Except WinError WiaVariant
  fallbackClear : Except WinError Unit

/-- Embeds `src/lib.rs` lines 216-257, the branch of
`check_scanner_capabilities` that computes the raw `(has_feeder, has_flatbed)`
pair before the final permissive default.  If the primary read succeeds: a
`VT_I4` payload sets the flags from its FEEDER and FLATBED bits, any other tag
leaves both flags false; the primary clear then runs, its failure propagating
through `handle_error`.  If the primary read fails: the fallback status
property is read; on a `VT_I4` payload the feeder flag comes from the FEEDER
bit and the flatbed flag is assumed true, any other tag leaves both false; the
fallback clear runs only on this path; a failed fallback read leaves both
flags false without error. -/
def detect_raw (env : CapEnv) : Except String (Bool × Bool) :=
  match env.primaryRead with
  | .ok prop_var =>
    let flags :=
      match prop_var with
      | .vtI4 capabilities =>
        (capabilities &&& FEEDER != 0, capabilities &&& FLATBED != 0)
      | _ => (false, false)
    match env.primaryClear with
    | .error e => .error (handle_error e)
    | .ok _ => .ok flags
  | .error _hr =>
    match env.fallbackRead with
    | .ok status_var =>
      let flags :=
        match status_var with
        | .vtI4 status => (status &&& FEEDER != 0, true)
        | _ => (false, false)
      match env.fallbackClear with
      | .error e => .error (handle_error e)
      | .ok _ => .ok flags
    | .error _ => .ok (false, false)

/-- Embeds the final permissive default of `src/lib.rs` lines 260-264: if
neither flag was detected, assume both sources are available. -/
def applyDefault (p : Bool × Bool) : Bool × Bool :=
  if !p.1 && !p.2 then (true, true) else p

/-- Embeds `check_scanner_capabilities` from `src/lib.rs` lines 196-268: the
raw detection of `detect_raw` followed by the permissive default, wrapped in
`Ok`. -/
def check_scanner_capabilities (env : CapEnv) : Except String (Bool × Bool) :=
  match detect_raw env with
  | .error msg => .error msg
  | .ok flags => .ok (applyDefault flags)

/-- Helper: the permissive default never lets both flags be false. -/
theorem applyDefault_total (p : Bool × Bool) :
    (applyDefault p).1 = true ∨ (applyDefault p).2 = true := by
  rcases p with ⟨a, b⟩
  cases a <;> cases b <;> simp [applyDefault]

/-- C2.  The three-case truth table of `check_scanner_capabilities`: a primary
`VT_I4` read with the feeder bit set and the flatbed bit clear (clear call
succeeding) yields `(true, false)`; a failed primary read with a fallback
`VT_I4` read whose feeder bit is set (its clear succeeding) yields
`(true, true)`; and failed primary and fallback reads yield `(true, true)` via
the permissive default. -/
theorem C2_capability_truth_table :
    (∀ (env : CapEnv) (c : Nat),
      env.primaryRead = .ok (.vtI4 c) → env.primaryClear = .ok () →
      c &&& FEEDER ≠ 0 → c &&& FLATBED = 0 →
      check_scanner_capabilities env = .ok (true, false)) ∧
    (∀ (env : CapEnv) (e : WinError) (s : Nat),
      env.primaryRead = .error e → env.fallbackRead = .ok (.vtI4 s) →
      env.fallbackClear = .ok () → s &&& FEEDER ≠ 0 →
      check_scanner_capabilities env = .ok (true, true)) ∧
    (∀ (env : CapEnv) (e1 e2 : WinError),
      env.primaryRead = .error e1 → env.fallbackRead = .error e2 →
      check_scanner_capabilities env = .ok (true, true)) := by
  refine ⟨?_, ?_, ?_⟩
  · rintro ⟨pr, pc, fr, fc⟩ c h1 h2 hf hb
    simp only at h1 h2
    subst h1; subst h2
    have hf2 : (c &&& FEEDER != 0) = true := by simpa using hf
    have hb2 : (c &&& FLATBED != 0) = false := by simp [hb]
    simp [check_scanner_capabilities, detect_raw, applyDefault, hf2, hb2]
  · rintro ⟨pr, pc, fr, fc⟩ e s h1 h2 h3 hf
    simp only at h1 h2 h3
    subst h1; subst h2; subst h3
    have hf2 : (s &&& FEEDER != 0) = true := by simpa using hf
    simp [check_scanner_capabilities, detect_raw, applyDefault, hf2]
  · rintro ⟨pr, pc, fr, fc⟩ e1 e2 h1 h2
    simp only at h1 h2
    subst h1; subst h2
    simp [check_scanner_capabilities, detect_raw, applyDefault]

/-- C2, witness: the truth table instantiated at bitmask value 1 (feeder bit
set, flatbed bit clear), at a failed primary read with fallback status 1, and
at failed primary and fallback reads. -/
theorem C2_capability_truth_table_witness :
    check_scanner_capabilities ⟨.ok (.vtI4 1), .ok (), .ok .vtOther, .ok ()⟩ =
      .ok (true, false) ∧
    check_scanner_capabilities ⟨.error ⟨"0x80210006"⟩, .ok (), .ok (.vtI4 1), .ok ()⟩ =
      .ok (true, true) ∧
    check_scanner_capabilities
        ⟨.error ⟨"0x80210006"⟩, .ok (), .error ⟨"0x80210005"⟩, .ok ()⟩ =
      .ok (true, true) :=
  ⟨C2_capability_truth_table.1 ⟨.ok (.vtI4 1), .ok (), .ok .vtOther, .ok ()⟩ 1
      rfl rfl (by decide) (by decide),
   C2_capability_truth_table.2.1 ⟨.error ⟨"0x80210006"⟩, .ok (), .ok (.vtI4 1), .ok ()⟩
      ⟨"0x80210006"⟩ 1 rfl rfl rfl (by decide),
   C2_capability_truth_table.2.2
      ⟨.error ⟨"0x80210006"⟩, .ok (), .error ⟨"0x80210005"⟩, .ok ()⟩
      ⟨"0x80210006"⟩ ⟨"0x80210005"⟩ rfl rfl⟩

/-- C3, counterexample.  The claim says the fallback status property is
consulted whenever the primary read fails to produce a usable integer,
including when the returned variant is not of integer type; on the environment
where the primary read succeeds with a non-integer variant and the fallback
holds `VT_I4 0` (feeder bit clear), that would force the result
`(feeder = false, flatbed = true)`.  The code instead never consults the
fallback on the wrong-type path: both flags stay false and the permissive
default produces `(true, true)`, which differs from the claimed `(false, true)`. -/
theorem C3_counterexample :
    check_scanner_capabilities ⟨.ok .vtOther, .ok (), .ok (.vtI4 0), .ok ()⟩ =
      .ok (true, true) ∧
    ((true, true) : Bool × Bool) ≠ (false, true) := by
  exact ⟨rfl, by decide⟩

/-- C3, amended.  The fallback document-handling-status property is consulted
only when the primary store read returns an error: if the primary read
succeeds with a non-integer variant (its clear succeeding), the result is
`(true, true)` via the permissive default regardless of the fallback outcomes;
and when the primary read fails and the fallback yields `VT_I4 s` (its clear
succeeding), feeder availability is taken from the feeder bit of `s` and
flatbed is assumed available. -/
theorem C3_fallback_on_read_error :
    (∀ env : CapEnv,
      env.primaryRead = .ok .vtOther → env.primaryClear = .ok () →
      check_scanner_capabilities env = .ok (true, true)) ∧
    (∀ (env : CapEnv) (e : WinError) (s : Nat),
      env.primaryRead = .error e → env.fallbackRead = .ok (.vtI4 s) →
      env.fallbackClear = .ok () →
      check_scanner_capabilities env = .ok ((s &&& FEEDER != 0), true)) := by
  constructor
  · rintro ⟨pr, pc, fr, fc⟩ h1 h2
    simp only at h1 h2
    subst h1; subst h2
    simp [check_scanner_capabilities, detect_raw, applyDefault]
  · rintro ⟨pr, pc, fr, fc⟩ e s h1 h2 h3
    simp only at h1 h2 h3
    subst h1; subst h2; subst h3
    simp [check_scanner_capabilities, detect_raw, applyDefault]

/-- C3, witness: the amended theorem at a wrong-type primary read (with the
fallback holding `VT_I4 0`, showing it is not consulted) and at a failed
primary read with fallback status 0, where the feeder flag follows the (clear)
feeder bit and flatbed is assumed. -/
theorem C3_fallback_on_read_error_witness :
    check_scanner_capabilities ⟨.ok .vtOther, .ok (), .ok (.vtI4 0), .ok ()⟩ =
      .ok (true, true) ∧
    check_scanner_capabilities ⟨.error ⟨"0x80210007"⟩, .ok (), .ok (.vtI4 0), .ok ()⟩ =
      .ok (false, true) :=
  ⟨C3_fallback_on_read_error.1 ⟨.ok .vtOther, .ok (), .ok (.vtI4 0), .ok ()⟩ rfl rfl,
   C3_fallback_on_read_error.2 ⟨.error ⟨"0x80210007"⟩, .ok (), .ok (.vtI4 0), .ok ()⟩
     ⟨"0x80210007"⟩ 0 rfl rfl rfl⟩

/-- C9.  Whenever `check_scanner_capabilities` returns `Ok` with a pair of
flags, at least one of the two flags is true: the permissive default rewrites
`(false, false)` to `(true, true)` on every successful path. -/
theorem C9_never_both_false (env : CapEnv) (f b : Bool)
    (h : check_scanner_capabilities env = .ok (f, b)) :
    f = true ∨ b = true := by
  unfold check_scanner_capabilities at h
  cases hd : detect_raw env with
  | error msg => rw [hd] at h; cases h
  | ok p =>
    rw [hd] at h
    have hp : applyDefault p = (f, b) := by
      simpa using h
    have := applyDefault_total p
    rw [hp] at this
    simpa using this

/-- C9, witness: the theorem applied at an environment whose primary read
yields the all-clear bitmask 0, which the code resolves to `(true, true)`. -/
theorem C9_never_both_false_witness : (true = true) ∨ (true = true) :=
  C9_never_both_false ⟨.ok (.vtI4 0), .ok (), .ok .vtOther, .ok ()⟩ true true rfl

/-- C10.  When the primary read succeeds with a `VT_I4` bitmask in which both
the FEEDER and the FLATBED bit are clear (and the clear call succeeds), the
definite negative signal is overridden by the permissive default and
`check_scanner_capabilities` returns `(true, true)`. -/
theorem C10_zero_bitmask_overridden (env : CapEnv) (v : Nat)
    (h1 : env.primaryRead = .ok (.vtI4 v)) (h2 : env.primaryClear = .ok ())
    (hf : v &&& FEEDER = 0) (hb : v &&& FLATBED = 0) :
    check_scanner_capabilities env = .ok (true, true) := by
  obtain ⟨pr, pc, fr, fc⟩ := env
  simp only at h1 h2
  subst h1; subst h2
  have hf2 : (v &&& FEEDER != 0) = false := by simp [hf]
  have hb2 : (v &&& FLATBED != 0) = false := by simp [hb]
  simp [check_scanner_capabilities, detect_raw, applyDefault, hf2, hb2]

/-- C10, witness: the theorem applied at bitmask value 0. -/
theorem C10_zero_bitmask_overridden_witness :
    check_scanner_capabilities ⟨.ok (.vtI4 0), .ok (), .error ⟨"0x80210005"⟩, .ok ()⟩ =
      .ok (true, true) :=
  C10_zero_bitmask_overridden ⟨.ok (.vtI4 0), .ok (), .error ⟨"0x80210005"⟩, .ok ()⟩ 0
    rfl rfl (by decide) (by decide)

/-- WIA device property id `WIA_DIP_DEV_ID` (value 2 in the Windows headers). -/
def WIA_DIP_DEV_ID : Nat := 2

/-- WIA device property id `WIA_DIP_DEV_DESC` (value 4 in the Windows headers). -/
def WIA_DIP_DEV_DESC : Nat := 4

/-- WIA device property id `WIA_DIP_DEV_NAME` (value 7 in the Windows headers). -/
def WIA_DIP_DEV_NAME : Nat := 7

/-- Embeds the per-flag combination of the device-scope and item-scope results
of `check_scanner_capabilities`, `src/lib.rs` lines 143-145: logical OR of the
feeder flags and logical OR of the flatbed flags. -/
def combine_capabilities (device item : Bool × Bool) : Bool × Bool :=
  (device.1 || item.1, device.2 || item.2)

/-- C4.  For every pair of device-scope and item-scope capability results, the
combined capability flags are the per-flag logical OR: the combined feeder
flag is true iff the device-scope or the item-scope feeder flag is true, and
likewise for flatbed; in particular `(false, true)` combined with
`(true, false)` yields `(true, true)`. -/
theorem C4_combine_is_or :
    (∀ device item : Bool × Bool,
      ((combine_capabilities device item).1 = true ↔
        device.1 = true ∨ item.1 = true) ∧
      ((combine_capabilities device item).2 = true ↔
        device.2 = true ∨ item.2 = true)) ∧
    combine_capabilities (false, true) (true, false) = (true, true) := by
  constructor
  · intro device item
    constructor <;> simp [combine_capabilities]
  · rfl

/-- Outcome environment for the device enumerator obtained in `list_devices`:
the result of `IEnumWIA_DEV_INFO::GetCount` and, for each loop index, the
result of `IEnumWIA_DEV_INFO::Next` — `none` models a `Next` that fetched no
device-info storage, `some store` models a fetched `IWiaPropertyStorage`,
given as a map from property id to that property's read outcome. -/
structure EnumDevEnv where
  getCount : Except WinError Nat
  next : Nat → Except WinError (Option (Nat → PropReadOutcome))

/-- Outcome environment for `list_devices` up to the scan prompt: the result
of `IWiaDevMgr::EnumDeviceInfo(...).ok()`, with `none` modelling a failed
enumerator creation. -/
structure ListDevicesEnv where
  enumDevInfo : Option EnumDevEnv

/-- Embeds one iteration of the device loop of `list_devices`, `src/lib.rs`
lines 68-93: advance the enumerator (failure mapping through `handle_error`);
if a device-info storage was fetched, read the device id (recording
`(i + 1, id)` in the catalog), then the device name and the device
description, each via `read_bstr_property` with failures propagating. -/
def list_devices_step (e : EnumDevEnv) (device_map : List (Nat × String)) (i : Nat) :
    Except String (List (Nat × String)) := do
  let wia_dev_info ← (e.next i).mapError handle_error
  match wia_dev_info with
  | some dev_info => do
    let id_string ← read_bstr_property (dev_info WIA_DIP_DEV_ID)
    let device_map := device_map ++ [(i + 1, id_string)]
    let _name_string ← read_bstr_property (dev_info WIA_DIP_DEV_NAME)
    let _desc_string ← read_bstr_property (dev_info WIA_DIP_DEV_DESC)
    pure device_map
  | none => pure device_map

/-- Embeds the deterministic catalog-building part of `list_devices`,
`src/lib.rs` lines 53-99: a failed enumerator creation prints and returns
`Ok` with an empty catalog; otherwise the device count is fetched (failure
mapping through `handle_error`), the device loop runs for indices
`0..count`, and the boolean result records whether the
`"Would you like to scan a document?"` prompt is shown, which is exactly
`!device_map.is_empty()` (line 96). -/
def list_devices_catalog (env : ListDevicesEnv) :
    Except String (List (Nat × String) × Bool) := do
  match env.enumDevInfo with
  | none => pure ([], false)
  | some e => do
    let device_count ← e.getCount.mapError handle_error
    let device_map ← (List.range device_count).foldlM (list_devices_step e) []
    pure (device_map, !device_map.isEmpty)

/-- C6.  When device enumeration yields zero devices — whether because the
enumerator was not obtained or because the count is zero — `list_devices`
returns success with an empty catalog, not an error; and on every successful
run whose catalog is empty, the scan prompt is not shown. -/
theorem C6_empty_enumeration :
    (∀ env : ListDevicesEnv, env.enumDevInfo = none →
      list_devices_catalog env = .ok ([], false)) ∧
    (∀ (env : ListDevicesEnv) (e : EnumDevEnv),
      env.enumDevInfo = some e → e.getCount = .ok 0 →
      list_devices_catalog env = .ok ([], false)) ∧
    (∀ (env : ListDevicesEnv) (res : List (Nat × String) × Bool),
      list_devices_catalog env = .ok res → res.1 = [] → res.2 = false) := by
  refine ⟨?_, ?_, ?_⟩
  · rintro ⟨ed⟩ h
    simp only at h
    subst h
    rfl
  · rintro ⟨ed⟩ e h hc
    simp only at h
    subst h
    obtain ⟨gc, nx⟩ := e
    simp only at hc
    subst hc
    rfl
  · rintro ⟨ed⟩ res h hres
    cases ed with
    | none =>
      have hr : res = ([], false) := by
        simpa [list_devices_catalog, pure, Except.pure, eq_comm] using h
      subst hr
      rfl
    | some e =>
      cases hg : e.getCount with
      | error msg =>
        simp [list_devices_catalog, hg, Except.mapError, Except.bind, bind] at h
      | ok n =>
        cases hm : (List.range n).foldlM (list_devices_step e) [] with
        | error msg =>
          simp [list_devices_catalog, hg, hm, Except.mapError, Except.bind, bind] at h
        | ok m =>
          have hr : res = (m, !m.isEmpty) := by
            simpa [list_devices_catalog, hg, hm, Except.mapError, Except.bind, bind,
              pure, Except.pure, eq_comm] using h
          subst hr
          simp only at hres
          subst hres
          rfl

/-- C6, witness: the theorem applied at a missing enumerator, at an
enumerator counting zero devices, and at the resulting empty-catalog run. -/
theorem C6_empty_enumeration_witness :
    list_devices_catalog ⟨none⟩ = .ok ([], false) ∧
    list_devices_catalog ⟨some ⟨.ok 0, fun _ => .error ⟨"0x80210005"⟩⟩⟩ =
      .ok ([], false) ∧
    (([], false) : List (Nat × String) × Bool).2 = false :=
  ⟨C6_empty_enumeration.1 ⟨none⟩ rfl,
   C6_empty_enumeration.2.1 ⟨some ⟨.ok 0, fun _ => .error ⟨"0x80210005"⟩⟩⟩
     ⟨.ok 0, fun _ => .error ⟨"0x80210005"⟩⟩ rfl rfl,
   C6_empty_enumeration.2.2 ⟨none⟩ ([], false) rfl rfl⟩

/-- Outcome environment for one invocation of `scan_document`, one field per
fallible subsystem call in `src/lib.rs` lines 270-344, in call order: the
`CoCreateInstance` of the device manager, the `CreateDevice` reconnection by
identifier, the cast of the device to its property storage, the
`WriteMultiple` of `WIA_IPS_DOCUMENT_HANDLING_SELECT`, the `EnumChildItems`
re-enumeration, the `Next` fetch of the first child item (`none` modelling no
item fetched), the cast of that item to `IWiaDataTransfer`, and the
`idtGetData` file transfer. -/
structure ScanEnv where
  createDevMgr : Except WinError Unit
  createDevice : Except WinError Unit
  castDeviceProps : Except WinError Unit
  writeHandlingSelect : Except WinError Unit
  enumChildItems : Except WinError Unit
  nextItem : Except WinError (Option Unit)
  castDataTransfer : Except WinError Unit
  idtGetData : Except WinError Unit

/-- Embeds `scan_document` from `src/lib.rs` lines 270-344.  The returned
boolean records whether the transfer ran and the output file
`scanned_document.pdf` was written: device-manager creation, device
reconnection and the property-storage cast each abort on failure through
`handle_error`; the `WriteMultiple` of the document-handling-select property
is only inspected for logging (lines 302-306) and never aborts; child-item
re-enumeration and the item fetch abort on failure; a fetch that yields no
item returns `Ok` with no transfer (lines 315-318); otherwise the transfer
cast and `idtGetData` abort on failure, and success returns `Ok` with the
file written. -/
def scan_document (env : ScanEnv) : Except String Bool := do
  let _ ← env.createDevMgr.mapError handle_error
  let _ ← env.createDevice.mapError handle_error
  let _ ← env.castDeviceProps.mapError handle_error
  let _hr := env.writeHandlingSelect
  let _ ← env.enumChildItems.mapError handle_error
  let scan_item ← env.nextItem.mapError handle_error
  match scan_item with
  | none => pure false
  | some _ => do
    let _ ← env.castDataTransfer.mapError handle_error
    let _ ← env.idtGetData.mapError handle_error
    pure true

/-- C7.  A failure of the document-handling-select write is non-fatal: the
result of `scan_document` is entirely independent of that write's outcome,
and with every other step succeeding a failed write still re-enumerates,
transfers and returns success; by contrast a failure in device reconnection,
in child-item enumeration (either the enumerator creation or the item fetch),
or in the data transfer aborts `scan_document` with the translated error. -/
theorem C7_write_failure_nonfatal :
    (∀ (env : ScanEnv) (w1 w2 : Except WinError Unit),
      scan_document { env with writeHandlingSelect := w1 } =
      scan_document { env with writeHandlingSelect := w2 }) ∧
    (∀ (env : ScanEnv) (e : WinError),
      env.createDevMgr = .ok () → env.createDevice = .ok () →
      env.castDeviceProps = .ok () → env.writeHandlingSelect = .error e →
      env.enumChildItems = .ok () → env.nextItem = .ok (some ()) →
      env.castDataTransfer = .ok () → env.idtGetData = .ok () →
      scan_document env = .ok true) ∧
    (∀ (env : ScanEnv) (e : WinError),
      env.createDevMgr = .ok () → env.createDevice = .error e →
      scan_document env = .error (handle_error e)) ∧
    (∀ (env : ScanEnv) (e : WinError),
      env.createDevMgr = .ok () → env.createDevice = .ok () →
      env.castDeviceProps = .ok () → env.enumChildItems = .error e →
      scan_document env = .error (handle_error e)) ∧
    (∀ (env : ScanEnv) (e : WinError),
      env.createDevMgr = .ok () → env.createDevice = .ok () →
      env.castDeviceProps = .ok () → env.enumChildItems = .ok () →
      env.nextItem = .error e →
      scan_document env = .error (handle_error e)) ∧
    (∀ (env : ScanEnv) (e : WinError),
      env.createDevMgr = .ok () → env.createDevice = .ok () →
      env.castDeviceProps = .ok () → env.enumChildItems = .ok () →
      env.nextItem = .ok (some ()) → env.castDataTransfer = .ok () →
      env.idtGetData = .error e →
      scan_document env = .error (handle_error e)) := by
  refine ⟨?_, ?_, ?_, ?_, ?_, ?_⟩
  · rintro ⟨a, b, c, d, f, g, i, j⟩ w1 w2
    rfl
  · rintro ⟨a, b, c, d, f, g, i, j⟩ e h1 h2 h3 h4 h5 h6 h7 h8
    simp only at h1 h2 h3 h4 h5 h6 h7 h8
    subst h1; subst h2; subst h3; subst h4; subst h5; subst h6; subst h7; subst h8
    rfl
  · rintro ⟨a, b, c, d, f, g, i, j⟩ e h1 h2
    simp only at h1 h2
    subst h1; subst h2
    rfl
  · rintro ⟨a, b, c, d, f, g, i, j⟩ e h1 h2 h3 h4
    simp only at h1 h2 h3 h4
    subst h1; subst h2; subst h3; subst h4
    rfl
  · rintro ⟨a, b, c, d, f, g, i, j⟩ e h1 h2 h3 h4 h5
    simp only at h1 h2 h3 h4 h5
    subst h1; subst h2; subst h3; subst h4; subst h5
    rfl
  · rintro ⟨a, b, c, d, f, g, i, j⟩ e h1 h2 h3 h4 h5 h6 h7
    simp only at h1 h2 h3 h4 h5 h6 h7
    subst h1; subst h2; subst h3; subst h4; subst h5; subst h6; subst h7
    rfl

/-- C7, witness: each conjunct instantiated at a concrete environment, with
the busy HRESULT as the failing call's error. -/
theorem C7_write_failure_nonfatal_witness :
    scan_document ⟨.ok (), .ok (), .ok (), .error ⟨"0x80210006"⟩, .ok (),
        .ok (some ()), .ok (), .ok ()⟩ =
      scan_document ⟨.ok (), .ok (), .ok (), .ok (), .ok (),
        .ok (some ()), .ok (), .ok ()⟩ ∧
    scan_document ⟨.ok (), .ok (), .ok (), .error ⟨"0x80210006"⟩, .ok (),
        .ok (some ()), .ok (), .ok ()⟩ = .ok true ∧
    scan_document ⟨.ok (), .error ⟨"0x80210006"⟩, .ok (), .ok (), .ok (),
        .ok (some ()), .ok (), .ok ()⟩ = .error (handle_error ⟨"0x80210006"⟩) ∧
    scan_document ⟨.ok (), .ok (), .ok (), .ok (), .error ⟨"0x80210006"⟩,
        .ok (some ()), .ok (), .ok ()⟩ = .error (handle_error ⟨"0x80210006"⟩) ∧
    scan_document ⟨.ok (), .ok (), .ok (), .ok (), .ok (),
        .error ⟨"0x80210006"⟩, .ok (), .ok ()⟩ = .error (handle_error ⟨"0x80210006"⟩) ∧
    scan_document ⟨.ok (), .ok (), .ok (), .ok (), .ok (),
        .ok (some ()), .ok (), .error ⟨"0x80210006"⟩⟩ =
      .error (handle_error ⟨"0x80210006"⟩) :=
  ⟨C7_write_failure_nonfatal.1
      ⟨.ok (), .ok (), .ok (), .ok (), .ok (), .ok (some ()), .ok (), .ok ()⟩
      (.error ⟨"0x80210006"⟩) (.ok ()),
   C7_write_failure_nonfatal.2.1
      ⟨.ok (), .ok (), .ok (), .error ⟨"0x80210006"⟩, .ok (), .ok (some ()),
        .ok (), .ok ()⟩ ⟨"0x80210006"⟩ rfl rfl rfl rfl rfl rfl rfl rfl,
   C7_write_failure_nonfatal.2.2.1
      ⟨.ok (), .error ⟨"0x80210006"⟩, .ok (), .ok (), .ok (), .ok (some ()),
        .ok (), .ok ()⟩ ⟨"0x80210006"⟩ rfl rfl,
   C7_write_failure_nonfatal.2.2.2.1
      ⟨.ok (), .ok (), .ok (), .ok (), .error ⟨"0x80210006"⟩, .ok (some ()),
        .ok (), .ok ()⟩ ⟨"0x80210006"⟩ rfl rfl rfl rfl,
   C7_write_failure_nonfatal.2.2.2.2.1
      ⟨.ok (), .ok (), .ok (), .ok (), .ok (), .error ⟨"0x80210006"⟩,
        .ok (), .ok ()⟩ ⟨"0x80210006"⟩ rfl rfl rfl rfl rfl,
   C7_write_failure_nonfatal.2.2.2.2.2
      ⟨.ok (), .ok (), .ok (), .ok (), .ok (), .ok (some ()), .ok (),
        .error ⟨"0x80210006"⟩⟩ ⟨"0x80210006"⟩ rfl rfl rfl rfl rfl rfl rfl⟩

/-- C8.  If re-enumeration of the device's child items after the mode write
yields no item, `scan_document` returns success having performed no transfer
— the returned flag records that no output file was written on that path. -/
theorem C8_no_item_is_noop (env : ScanEnv)
    (h1 : env.createDevMgr = .ok ()) (h2 : env.createDevice = .ok ())
    (h3 : env.castDeviceProps = .ok ()) (h4 : env.enumChildItems = .ok ())
    (h5 : env.nextItem = .ok none) :
    scan_document env = .ok false := by
  obtain ⟨a, b, c, d, f, g, i, j⟩ := env
  simp only at h1 h2 h3 h4 h5
  subst h1; subst h2; subst h3; subst h4; subst h5
  rfl

/-- C8, witness: the theorem applied at a run where every step up to the item
fetch succeeds and the fetch yields no item. -/
theorem C8_no_item_is_noop_witness :
    scan_document ⟨.ok (), .ok (), .ok (), .ok (), .ok (), .ok none,
        .ok (), .ok ()⟩ = .ok false :=
  C8_no_item_is_noop
    ⟨.ok (), .ok (), .ok (), .ok (), .ok (), .ok none, .ok (), .ok ()⟩
    rfl rfl rfl rfl rfl
